import Mathlib

/-!
Verification of the globe similarity-visualization core of the dsF2025
frontend: distance categorization, color/opacity mapping, the similarity
graph builder (same-language arcs and similarity arcs), arc-click
navigation, the similarity ranking panel, and the word-order summary.

Numbers are modelled as rationals (ℚ); the JavaScript sources compute the
same expressions over IEEE doubles, and none of the verified properties
depends on rounding of doubles.  JavaScript `Math.round` rounds half
toward positive infinity, modelled by `jsRound`.  Object lookups that may
be `undefined` are modelled with `Option`; a matrix cell that is present
but `null` is `some none`.  The haversine geodesic distance is a
real-valued (trigonometric) quantity that no verified property inspects;
the graph builder takes the composed normalized-geo-distance function as
an explicit parameter `geoNorm` and all theorems hold for every such
function.
-/

/-- JavaScript `Math.round`: round half toward positive infinity. -/
def jsRound (q : ℚ) : ℤ := ⌊q + 1/2⌋

/-- The six distance buckets plus the structural `same` category used for
same-language arcs (`ArcData.category` in `Globe.tsx`). -/
inductive Category where
  | veryClose
  | close
  | slightlyClose
  | slightlyFar
  | far
  | veryFar
  | same
deriving DecidableEq

/-- `DistanceFilter` from `Globe.tsx`: six independent booleans. -/
structure DistanceFilter where
  veryClose : Bool
  close : Bool
  slightlyClose : Bool
  slightlyFar : Bool
  far : Bool
  veryFar : Bool
deriving DecidableEq

/-- `distanceFilter[category]` for the six distance categories.  The
builder never consults the filter on `same` arcs; that case is mapped to
`true` and is unreachable from `simArcs`. -/
def DistanceFilter.get (f : DistanceFilter) : Category → Bool
  | .veryClose => f.veryClose
  | .close => f.close
  | .slightlyClose => f.slightlyClose
  | .slightlyFar => f.slightlyFar
  | .far => f.far
  | .veryFar => f.veryFar
  | .same => true

/-- `getDistanceCategory` from `Globe.tsx` (lines 85-94): first-match
chain of strict upper bounds. -/
def getDistanceCategory (distance : ℚ) : Category :=
  if distance < 5/100 then .veryClose
  else if distance < 1/10 then .close
  else if distance < 3/10 then .slightlyClose
  else if distance < 5/10 then .slightlyFar
  else if distance < 7/10 then .far
  else .veryFar

/-- `getDistanceOpacity` from `Globe.tsx` (lines 96-99). -/
def getDistanceOpacity (distance : ℚ) : ℚ :=
  max (2/10) (8/10 - distance * (12/10))

/-- An rgba color: the three channels computed by `getDistanceColor`
plus the opacity it splices into the result string. -/
structure RGBA where
  r : ℤ
  g : ℤ
  b : ℤ
  a : ℚ
deriving DecidableEq

/-- `getDistanceColor` from `Globe.tsx` (lines 101-128): clamp `t = 2d`
to [0,1], then 4-segment piecewise-linear interpolation with
`Math.round` on every channel. -/
def getDistanceColor (distance opacity : ℚ) : RGBA :=
  let t := min (max (distance * 2) 0) 1
  if t < 25/100 then
    { r := jsRound (59 + t * 4 * (34 - 59))
      g := jsRound (130 + t * 4 * (197 - 130))
      b := jsRound (246 + t * 4 * (94 - 246))
      a := opacity }
  else if t < 5/10 then
    let tt := (t - 25/100) * 4
    { r := jsRound (34 + tt * (74 - 34))
      g := jsRound (197 + tt * (222 - 197))
      b := jsRound (94 + tt * (128 - 94))
      a := opacity }
  else if t < 75/100 then
    let tt := (t - 5/10) * 4
    { r := jsRound (74 + tt * (250 - 74))
      g := jsRound (222 + tt * (204 - 222))
      b := jsRound (128 + tt * (21 - 128))
      a := opacity }
  else
    let tt := (t - 75/100) * 4
    { r := jsRound (250 + tt * (239 - 250))
      g := jsRound (204 + tt * (68 - 204))
      b := jsRound (21 + tt * (68 - 21))
      a := opacity }

/-- Result record of `getWordOrderTendency` in the language popup
(`LanguagePopup.tsx`): label, English/Japanese label, description, color. -/
structure WordOrderResult where
  tendency : String
  tendencyEn : String
  description : String
  color : String
deriving DecidableEq

def unknownTendency : WordOrderResult :=
  { tendency := "不明", tendencyEn := "Unknown",
    description := "データが不足しています", color := "#64748b" }

def headInitialTendency : WordOrderResult :=
  { tendency := "Head-Initial", tendencyEn := "VO型",
    description := "動詞が目的語より前に来る傾向", color := "#22c55e" }

def headFinalTendency : WordOrderResult :=
  { tendency := "Head-Final", tendencyEn := "OV型",
    description := "動詞が目的語より後に来る傾向", color := "#3b82f6" }

def mixedTendency : WordOrderResult :=
  { tendency := "混合型", tendencyEn := "Mixed",
    description := "語順が比較的自由・文脈依存", color := "#a855f7" }

/-- `HeadDirectionRates`: rows keyed by `"head,dep,relation"`, columns by
language name; a cell is a rate or `null` (`some none`). -/
abbrev HeadDirectionRates := List (String × List (String × Option ℚ))

/-- `rates[key]?.[lang]` — `none` when the row or the column is absent,
`some none` when the cell is `null`. -/
def ratesLookup (rates : HeadDirectionRates) (key lang : String) :
    Option (Option ℚ) :=
  match rates.lookup key with
  | none => none
  | some row => row.lookup lang

/-- `getWordOrderTendency` from `LanguagePopup.tsx`: classify the
`"VERBAL,NOMINAL,CORE_ARG"` rate of the language. -/
def getWordOrderTendency (languageName : String)
    (rates : HeadDirectionRates) : WordOrderResult :=
  match ratesLookup rates "VERBAL,NOMINAL,CORE_ARG" languageName with
  | none => unknownTendency
  | some none => unknownTendency
  | some (some rate) =>
    if rate > 7/10 then headInitialTendency
    else if rate < 3/10 then headFinalTendency
    else mixedTendency

/-- `LanguageLocation` from `languageLocations.ts`: one node of the
two-tier registry.  `primaryCode` is `some c` for a secondary node bound
to the primary with code `c`. -/
structure LanguageLocation where
  code : String
  name : String
  nameJa : String
  lat : ℚ
  lng : ℚ
  country : String
  isPrimary : Bool
  primaryCode : Option String := none
  isNonPUD : Bool := false
deriving DecidableEq

/-- JavaScript truthiness of a `string | undefined` value: `undefined`
and the empty string are falsy. -/
def optStrTruthy : Option String → Bool
  | some s => s != ""
  | none => false

/-- The static `LANGUAGE_LOCATIONS` registry from `languageLocations.ts`:
33 primary nodes (13 of them non-PUD) followed by 8 secondary nodes. -/
def LANGUAGE_LOCATIONS : List LanguageLocation := [
  { code := "ar", name := "Arabic", nameJa := "アラビア語", lat := 24.7136, lng := 46.6753, country := "Saudi Arabia", isPrimary := true },
  { code := "zh", name := "Chinese", nameJa := "中国語", lat := 39.9042, lng := 116.4074, country := "China", isPrimary := true },
  { code := "cs", name := "Czech", nameJa := "チェコ語", lat := 50.0755, lng := 14.4378, country := "Czech Republic", isPrimary := true },
  { code := "en", name := "English", nameJa := "英語", lat := 51.5074, lng := -0.1278, country := "United Kingdom", isPrimary := true },
  { code := "fi", name := "Finnish", nameJa := "フィンランド語", lat := 60.1699, lng := 24.9384, country := "Finland", isPrimary := true },
  { code := "fr", name := "French", nameJa := "フランス語", lat := 48.8566, lng := 2.3522, country := "France", isPrimary := true },
  { code := "gl", name := "Galician", nameJa := "ガリシア語", lat := 42.8782, lng := -8.5448, country := "Spain (Galicia)", isPrimary := true },
  { code := "de", name := "German", nameJa := "ドイツ語", lat := 52.5200, lng := 13.4050, country := "Germany", isPrimary := true },
  { code := "hi", name := "Hindi", nameJa := "ヒンディー語", lat := 28.6139, lng := 77.2090, country := "India", isPrimary := true },
  { code := "is", name := "Icelandic", nameJa := "アイスランド語", lat := 64.1466, lng := -21.9426, country := "Iceland", isPrimary := true },
  { code := "id", name := "Indonesian", nameJa := "インドネシア語", lat := -6.2088, lng := 106.8456, country := "Indonesia", isPrimary := true },
  { code := "it", name := "Italian", nameJa := "イタリア語", lat := 41.9028, lng := 12.4964, country := "Italy", isPrimary := true },
  { code := "ja", name := "Japanese", nameJa := "日本語", lat := 35.6762, lng := 139.6503, country := "Japan", isPrimary := true },
  { code := "ko", name := "Korean", nameJa := "韓国語", lat := 37.5665, lng := 126.9780, country := "South Korea", isPrimary := true },
  { code := "pt", name := "Portuguese", nameJa := "ポルトガル語", lat := 38.7223, lng := -9.1393, country := "Portugal", isPrimary := true },
  { code := "ru", name := "Russian", nameJa := "ロシア語", lat := 55.7558, lng := 37.6173, country := "Russia", isPrimary := true },
  { code := "es", name := "Spanish", nameJa := "スペイン語", lat := 40.4168, lng := -3.7038, country := "Spain", isPrimary := true },
  { code := "sv", name := "Swedish", nameJa := "スウェーデン語", lat := 59.3293, lng := 18.0686, country := "Sweden", isPrimary := true },
  { code := "th", name := "Thai", nameJa := "タイ語", lat := 13.7563, lng := 100.5018, country := "Thailand", isPrimary := true },
  { code := "tr", name := "Turkish", nameJa := "トルコ語", lat := 39.9334, lng := 32.8597, country := "Turkey", isPrimary := true },
  { code := "af", name := "Afrikaans", nameJa := "アフリカーンス語", lat := -25.7479, lng := 28.2293, country := "South Africa", isPrimary := true, isNonPUD := true },
  { code := "fo", name := "Faroese", nameJa := "フェロー語", lat := 62.0107, lng := -6.7697, country := "Faroe Islands", isPrimary := true, isNonPUD := true },
  { code := "he", name := "Hebrew", nameJa := "ヘブライ語", lat := 31.7683, lng := 35.2137, country := "Israel", isPrimary := true, isNonPUD := true },
  { code := "ga", name := "Irish", nameJa := "アイルランド語", lat := 53.3498, lng := -6.2603, country := "Ireland", isPrimary := true, isNonPUD := true },
  { code := "kpv", name := "Komi_Zyrian", nameJa := "コミ・ジリェン語", lat := 61.6640, lng := 50.8283, country := "Russia (Komi)", isPrimary := true, isNonPUD := true },
  { code := "yrk", name := "Nenets", nameJa := "ネネツ語", lat := 66.6644, lng := 66.3858, country := "Russia (Nenets)", isPrimary := true, isNonPUD := true },
  { code := "no", name := "NO", nameJa := "ノルウェー語", lat := 60.3913, lng := 5.3221, country := "Norway", isPrimary := true, isNonPUD := true },
  { code := "sa", name := "Sanskrit", nameJa := "サンスクリット語", lat := 28.6139, lng := 77.2090, country := "India", isPrimary := true, isNonPUD := true },
  { code := "tl", name := "Tagalog", nameJa := "タガログ語", lat := 14.5995, lng := 120.9842, country := "Philippines", isPrimary := true, isNonPUD := true },
  { code := "ta", name := "Tamil", nameJa := "タミル語", lat := 13.0827, lng := 80.2707, country := "India (Tamil Nadu)", isPrimary := true, isNonPUD := true },
  { code := "uz", name := "Uzbek", nameJa := "ウズベク語", lat := 41.2995, lng := 69.2401, country := "Uzbekistan", isPrimary := true, isNonPUD := true },
  { code := "vi", name := "Vietnamese", nameJa := "ベトナム語", lat := 21.0285, lng := 105.8542, country := "Vietnam", isPrimary := true, isNonPUD := true },
  { code := "sah", name := "Yakut", nameJa := "ヤクート語", lat := 62.0397, lng := 129.7422, country := "Russia (Sakha)", isPrimary := true, isNonPUD := true },
  { code := "en-us", name := "English", nameJa := "英語", lat := 38.9072, lng := -77.0369, country := "United States", isPrimary := false, primaryCode := some "en" },
  { code := "en-au", name := "English", nameJa := "英語", lat := -33.8688, lng := 151.2093, country := "Australia", isPrimary := false, primaryCode := some "en" },
  { code := "pt-br", name := "Portuguese", nameJa := "ポルトガル語", lat := -23.5505, lng := -46.6333, country := "Brazil", isPrimary := false, primaryCode := some "pt" },
  { code := "es-mx", name := "Spanish", nameJa := "スペイン語", lat := 19.4326, lng := -99.1332, country := "Mexico", isPrimary := false, primaryCode := some "es" },
  { code := "es-ar", name := "Spanish", nameJa := "スペイン語", lat := -34.6037, lng := -58.3816, country := "Argentina", isPrimary := false, primaryCode := some "es" },
  { code := "fr-ca", name := "French", nameJa := "フランス語", lat := 45.5017, lng := -73.5673, country := "Canada (Quebec)", isPrimary := false, primaryCode := some "fr" },
  { code := "ar-eg", name := "Arabic", nameJa := "アラビア語", lat := 30.0444, lng := 31.2357, country := "Egypt", isPrimary := false, primaryCode := some "ar" },
  { code := "zh-tw", name := "Chinese", nameJa := "中国語", lat := 25.0330, lng := 121.5654, country := "Taiwan", isPrimary := false, primaryCode := some "zh" }]

/-- `getLanguageByName` from `languageLocations.ts`: first primary node
with the given display name. -/
def getLanguageByName (name : String) : Option LanguageLocation :=
  LANGUAGE_LOCATIONS.find? fun lang => lang.name == name && lang.isPrimary

/-- `getPrimaryLanguages` from `languageLocations.ts`. -/
def getPrimaryLanguages : List LanguageLocation :=
  LANGUAGE_LOCATIONS.filter fun lang => lang.isPrimary

/-- The primary-language code a node stands for: its own code for a
primary node, its `primaryCode` back-reference otherwise. -/
def primaryCodeOfNode (n : LanguageLocation) : Option String :=
  if n.isPrimary then some n.code else n.primaryCode

/-- A similarity-matrix row: display name → distance, with `some none`
for a cell that is present but `null`. -/
abbrev MatrixRow := List (String × Option ℚ)

/-- `SimilarityMatrix`: display name → row.  Missing entries mean "no
data", never zero. -/
abbrev SimilarityMatrix := List (String × MatrixRow)

/-- `matrix[a]?.[b]` followed by the `undefined || null` guard both use
sites apply: `some d` exactly when row `a` exists, holds column `b`, and
the cell is an actual number. -/
def matrixGet (m : SimilarityMatrix) (a b : String) : Option ℚ :=
  match m.lookup a with
  | none => none
  | some row =>
    match row.lookup b with
    | none => none
    | some none => none
    | some (some d) => some d

/-- The normalized geographic distance
`normalizeGeoDistance (calculateGeoDistance lat1 lng1 lat2 lng2)` is a
real-valued haversine expression none of the verified claims inspects;
the builder takes it as an explicit function parameter. -/
abbrev GeoNorm := ℚ → ℚ → ℚ → ℚ → ℚ

/-- `ArcData` from `Globe.tsx`. -/
structure ArcData where
  startLat : ℚ
  startLng : ℚ
  endLat : ℚ
  endLng : ℚ
  color : RGBA
  lang1 : String
  lang2 : String
  distance : ℚ
  geoDistance : ℚ
  category : Category
  clickable : Bool
  node1Code : String
  node2Code : String
deriving DecidableEq

/-- All index pairs `i < j` of a list, in the double-loop order of
`Globe.tsx`: `(xs[i], xs[j])` with `j` innermost. -/
def pairsUpper : List α → List (α × α)
  | [] => []
  | x :: xs => (xs.map fun y => (x, y)) ++ pairsUpper xs

/-- The same-language test of `Globe.tsx` (used in both loop phases):
`node1.primaryCode === node2.code || node2.primaryCode === node1.code ||
(node1.primaryCode && node1.primaryCode === node2.primaryCode)`. -/
def sameLanguagePair (n1 n2 : LanguageLocation) : Bool :=
  n1.primaryCode == some n2.code || n2.primaryCode == some n1.code ||
    (optStrTruthy n1.primaryCode && n1.primaryCode == n2.primaryCode)

/-- The representative language name of a node: itself if primary, else
`LANGUAGE_LOCATIONS.find(l => l.code === node.primaryCode)?.name` over
the supplied node list. -/
def resolveName (nodes : List LanguageLocation) (n : LanguageLocation) :
    Option String :=
  if n.isPrimary then some n.name
  else
    match n.primaryCode with
    | none => none
    | some p => (nodes.find? fun l => l.code == p).map fun l => l.name

/-- One same-language arc (phase 1 of `arcsData`): fixed gray color,
distance 0, category `same`, not clickable. -/
def mkSameArc (geoNorm : GeoNorm) (n1 n2 : LanguageLocation) : ArcData :=
  { startLat := n1.lat, startLng := n1.lng
    endLat := n2.lat, endLng := n2.lng
    color := ⟨148, 163, 184, 2/10⟩
    lang1 := n1.name, lang2 := n2.name
    distance := 0
    geoDistance := geoNorm n1.lat n1.lng n2.lat n2.lng
    category := .same, clickable := false
    node1Code := n1.code, node2Code := n2.code }

/-- Phase 1 of `arcsData` in `Globe.tsx`: same-language arcs for every
`i < j` pair passing `sameLanguagePair` — computed without looking at the
matrix, the filter or the selection. -/
def sameArcs (geoNorm : GeoNorm) (nodes : List LanguageLocation) :
    List ArcData :=
  (pairsUpper nodes).filterMap fun p =>
    if sameLanguagePair p.1 p.2 then some (mkSameArc geoNorm p.1 p.2)
    else none

/-- Truthiness of `targetNodeCode` (`string | null`). -/
def selTruthy (selected : Option String) : Bool :=
  optStrTruthy selected

/-- The selection skip of phase 2: with a truthy `targetNodeCode`, pairs
with neither endpoint equal to it are dropped. -/
def selSkip (selected : Option String) (n1 n2 : LanguageLocation) : Bool :=
  match selected with
  | none => false
  | some t => t != "" && n1.code != t && n2.code != t

/-- The body of phase 2 of `arcsData` for one `i < j` pair: selection
skip, same-language skip, name resolution with falsy guard, the
one-directional `matrix[lang1Name]?.[lang2Name]` lookup, categorization,
and the filter guard applied only when nothing is selected. -/
def simArcPair (geoNorm : GeoNorm) (nodes : List LanguageLocation)
    (matrix : SimilarityMatrix) (filter : DistanceFilter)
    (selected : Option String) (n1 n2 : LanguageLocation) : Option ArcData :=
  if selSkip selected n1 n2 then none
  else if sameLanguagePair n1 n2 then none
  else
    match resolveName nodes n1, resolveName nodes n2 with
    | some lang1Name, some lang2Name =>
      if lang1Name == "" || lang2Name == "" then none
      else
        match matrixGet matrix lang1Name lang2Name with
        | none => none
        | some distance =>
          let category := getDistanceCategory distance
          if !selTruthy selected && !filter.get category then none
          else
            some
              { startLat := n1.lat, startLng := n1.lng
                endLat := n2.lat, endLng := n2.lng
                color := getDistanceColor distance (getDistanceOpacity distance)
                lang1 := n1.name, lang2 := n2.name
                distance := distance
                geoDistance := geoNorm n1.lat n1.lng n2.lat n2.lng
                category := category, clickable := true
                node1Code := n1.code, node2Code := n2.code }
    | _, _ => none

/-- Phase 2 of `arcsData`: the similarity arcs. -/
def simArcs (geoNorm : GeoNorm) (nodes : List LanguageLocation)
    (matrix : SimilarityMatrix) (filter : DistanceFilter)
    (selected : Option String) : List ArcData :=
  (pairsUpper nodes).filterMap fun p =>
    simArcPair geoNorm nodes matrix filter selected p.1 p.2

/-- `arcsData` from `Globe.tsx`: same-language arcs first, then
similarity arcs. -/
def arcsData (geoNorm : GeoNorm) (nodes : List LanguageLocation)
    (matrix : SimilarityMatrix) (filter : DistanceFilter)
    (selected : Option String) : List ArcData :=
  sameArcs geoNorm nodes ++ simArcs geoNorm nodes matrix filter selected

/-- `handleArcClick` from `Globe.tsx`, with the ambient selection state
threaded through to record that the handler never writes it: returns the
unchanged selection and the emitted navigation route (if any). -/
def handleArcClick (selected : Option String) (arc : ArcData) :
    Option String × Option String :=
  if arc.clickable = false then (selected, none)
  else
    match getLanguageByName arc.lang1, getLanguageByName arc.lang2 with
    | some lang1, some lang2 =>
      (selected, some ("/compare/" ++ lang1.code ++ "/" ++ lang2.code))
    | _, _ => (selected, none)

/-- `SimilarityItem` from `LanguageSimilarityPanel.tsx`. -/
structure SimilarityItem where
  code : String
  name : String
  nameJa : String
  country : String
  similarity : ℚ
  distance : ℚ
deriving DecidableEq

/-- The sort order of the ranking panel: ascending distance (the JS
comparator `a.distance - b.distance`). -/
def itemLE (a b : SimilarityItem) : Prop := a.distance ≤ b.distance

instance : DecidableRel itemLE := fun a b =>
  inferInstanceAs (Decidable (a.distance ≤ b.distance))

instance : IsTotal SimilarityItem itemLE :=
  ⟨fun a b => le_total a.distance b.distance⟩

instance : IsTrans SimilarityItem itemLE :=
  ⟨fun _ _ _ h1 h2 => le_trans h1 h2⟩

/-- The item-collection loop of `sortedSimilarities`: every node except
the selection and its same-language variants, resolved and looked up in
the selected language's direction only; `similarity = 1 - distance`. -/
def rankingItems (nodes : List LanguageLocation)
    (selectedNode : LanguageLocation) (selectedNodeCode : String)
    (selectedLangName : String) (matrix : SimilarityMatrix) :
    List SimilarityItem :=
  nodes.filterMap fun node =>
    if node.code == selectedNodeCode then none
    else if node.name == selectedNode.name then none
    else if node.primaryCode == some selectedNodeCode then none
    else if optStrTruthy selectedNode.primaryCode &&
        some node.code == selectedNode.primaryCode then none
    else if optStrTruthy selectedNode.primaryCode &&
        node.primaryCode == selectedNode.primaryCode then none
    else
      match resolveName nodes node with
      | none => none
      | some nodeLangName =>
        if nodeLangName == "" then none
        else
          match matrixGet matrix selectedLangName nodeLangName with
          | none => none
          | some distance =>
            some
              { code := node.code, name := node.name, nameJa := node.nameJa
                country := node.country
                similarity := 1 - distance, distance := distance }

/-- `sortedSimilarities` from `LanguageSimilarityPanel.tsx`: resolve the
selection, bail out to `[]` when the selection, its representative name
or its matrix row is missing, then sort the collected items by ascending
distance (JS `Array.prototype.sort` is stable; `insertionSort` is its
stable counterpart). -/
def sortedSimilarities (nodes : List LanguageLocation)
    (selectedNodeCode : String) (matrix : SimilarityMatrix) :
    List SimilarityItem :=
  match nodes.find? fun l => l.code == selectedNodeCode with
  | none => []
  | some selectedNode =>
    match resolveName nodes selectedNode with
    | none => []
    | some selectedLangName =>
      if selectedLangName == "" then []
      else
        match matrix.lookup selectedLangName with
        | none => []
        | some _ =>
          List.insertionSort itemLE
            (rankingItems nodes selectedNode selectedNodeCode
              selectedLangName matrix)

/-- A normalized-geo-distance instance for concrete evaluations; the
verified properties hold for every such function. -/
def geoZero : GeoNorm := fun _ _ _ _ => 0

/-- All six buckets enabled. -/
def allFilter : DistanceFilter :=
  { veryClose := true, close := true, slightlyClose := true
    slightlyFar := true, far := true, veryFar := true }

/-- All six buckets disabled. -/
def noFilter : DistanceFilter :=
  { veryClose := false, close := false, slightlyClose := false
    slightlyFar := false, far := false, veryFar := false }

/-- A two-node registry for concrete lookup-direction evaluations. -/
def nodeA : LanguageLocation :=
  { code := "a", name := "LangA", nameJa := "", lat := 0, lng := 0
    country := "", isPrimary := true }

def nodeB : LanguageLocation :=
  { code := "b", name := "LangB", nameJa := "", lat := 10, lng := 10
    country := "", isPrimary := true }

/-- A matrix holding the pair's distance only in the
`matrix["LangB"]["LangA"]` direction — the direction `arcsData` never
consults for the pair `(nodeA, nodeB)`. -/
def reverseOnlyMatrix : SimilarityMatrix := [("LangB", [("LangA", some (1/2))])]

/-- The same distance stored in the direction the code does consult. -/
def forwardOnlyMatrix : SimilarityMatrix := [("LangA", [("LangB", some (1/2))])]

/-- A single-row matrix for the navigation witness. -/
def arWitnessMatrix : SimilarityMatrix := [("Arabic", [("English", some (1/2))])]

/-- The Arabic, English and US-English entries of the registry (indices
0, 3 and 33 of `LANGUAGE_LOCATIONS`). -/
def arRegistryNode : LanguageLocation :=
  { code := "ar", name := "Arabic", nameJa := "アラビア語", lat := 24.7136
    lng := 46.6753, country := "Saudi Arabia", isPrimary := true }

def enRegistryNode : LanguageLocation :=
  { code := "en", name := "English", nameJa := "英語", lat := 51.5074
    lng := -0.1278, country := "United Kingdom", isPrimary := true }

def enUSRegistryNode : LanguageLocation :=
  { code := "en-us", name := "English", nameJa := "英語", lat := 38.9072
    lng := -77.0369, country := "United States", isPrimary := false
    primaryCode := some "en" }

/-- The similarity arc `arcsData` produces for the Arabic–English pair
of the registry under `arWitnessMatrix`. -/
def arWitnessArc : ArcData :=
  { startLat := 24.7136, startLng := 46.6753
    endLat := 51.5074, endLng := -0.1278
    color := getDistanceColor (1/2) (getDistanceOpacity (1/2))
    lang1 := "Arabic", lang2 := "English"
    distance := 1/2, geoDistance := 0
    category := getDistanceCategory (1/2), clickable := true
    node1Code := "ar", node2Code := "en" }

/-- The similarity arc produced for `(nodeA, nodeB)` under
`forwardOnlyMatrix`. -/
def arcAB : ArcData :=
  { startLat := 0, startLng := 0, endLat := 10, endLng := 10
    color := getDistanceColor (1/2) (getDistanceOpacity (1/2))
    lang1 := "LangA", lang2 := "LangB"
    distance := 1/2, geoDistance := 0
    category := getDistanceCategory (1/2), clickable := true
    node1Code := "a", node2Code := "b" }

/-- Four-node registry for the ranking example: a selected language and
three candidates at distances 0.02, 0.10, 0.40. -/
def rankNodeSel : LanguageLocation :=
  { code := "s", name := "Sel", nameJa := "", lat := 0, lng := 0
    country := "", isPrimary := true }

def rankNodeA : LanguageLocation :=
  { code := "ra", name := "A", nameJa := "", lat := 1, lng := 1
    country := "", isPrimary := true }

def rankNodeB : LanguageLocation :=
  { code := "rb", name := "B", nameJa := "", lat := 2, lng := 2
    country := "", isPrimary := true }

def rankNodeC : LanguageLocation :=
  { code := "rc", name := "C", nameJa := "", lat := 3, lng := 3
    country := "", isPrimary := true }

def rankNodes : List LanguageLocation :=
  [rankNodeSel, rankNodeA, rankNodeB, rankNodeC]

def rankMatrix : SimilarityMatrix :=
  [("Sel", [("A", some (2/100)), ("B", some (1/10)), ("C", some (4/10))])]

/-- A matrix whose only row is keyed by a name other than the selected
language's, while its columns do mention the selected language. -/
def rowlessMatrix : SimilarityMatrix := [("Other", [("Sel", some (1/2))])]

/-- Head-direction rates for the word-order witness. -/
def ratesWitness : HeadDirectionRates :=
  [("VERBAL,NOMINAL,CORE_ARG",
    [("Japanese", some (2/100)), ("English", some (95/100)), ("Thai", none)])]

/-- C5: distance categorization is first-match with lower-inclusive
boundaries: for non-negative `d`, `veryClose ↔ d < 0.05`,
`close ↔ 0.05 ≤ d < 0.10`, `slightlyClose ↔ 0.10 ≤ d < 0.30`,
`slightlyFar ↔ 0.30 ≤ d < 0.50`, `far ↔ 0.50 ≤ d < 0.70`,
`veryFar ↔ 0.70 ≤ d`; in particular `categorize 0.05 = close`. -/
theorem getDistanceCategory_buckets (d : ℚ) (h : 0 ≤ d) :
    (getDistanceCategory d = .veryClose ↔ d < 5/100) ∧
    (getDistanceCategory d = .close ↔ 5/100 ≤ d ∧ d < 1/10) ∧
    (getDistanceCategory d = .slightlyClose ↔ 1/10 ≤ d ∧ d < 3/10) ∧
    (getDistanceCategory d = .slightlyFar ↔ 3/10 ≤ d ∧ d < 5/10) ∧
    (getDistanceCategory d = .far ↔ 5/10 ≤ d ∧ d < 7/10) ∧
    (getDistanceCategory d = .veryFar ↔ 7/10 ≤ d) ∧
    getDistanceCategory (5/100) = .close := by
  unfold getDistanceCategory
  refine ⟨?_, ?_, ?_, ?_, ?_, ?_, by norm_num⟩ <;>
    · split_ifs <;> simp_all <;>
        first
          | linarith
          | (constructor <;> linarith)
          | (intro h1; linarith)
          | (intro h1 h2; linarith)

/-- Witness for C5 at `d = 0.05`: the hypothesis `0 ≤ d` holds and the
bucket characterization yields `close`. -/
theorem getDistanceCategory_buckets_witness :
    getDistanceCategory (5/100) = .close ∧ ¬ ((5:ℚ)/100 < 5/100) := by
  have h := getDistanceCategory_buckets (5/100) (by norm_num)
  exact ⟨h.2.2.2.2.2.2, by norm_num⟩

/-- C7: `opacity d = max 0.2 (0.8 - 1.2 d)`; `opacity 0 = 0.8`,
`opacity 0.5 = 0.2`, `opacity 1 = 0.2`, and the 0.2 floor is attained
exactly for `d ≥ 0.5`. -/
theorem getDistanceOpacity_values :
    getDistanceOpacity 0 = 8/10 ∧
    getDistanceOpacity (5/10) = 2/10 ∧
    getDistanceOpacity 1 = 2/10 ∧
    (∀ d : ℚ, getDistanceOpacity d = max (2/10) (8/10 - d * (12/10))) ∧
    (∀ d : ℚ, getDistanceOpacity d = 2/10 ↔ 5/10 ≤ d) := by
  refine ⟨by norm_num [getDistanceOpacity], by norm_num [getDistanceOpacity],
    by norm_num [getDistanceOpacity], fun d => rfl, fun d => ?_⟩
  unfold getDistanceOpacity
  rw [max_eq_left_iff]
  constructor <;> intro h <;> linarith

/-- Witness for C7 instantiating the floor characterization at `d = 0.5`. -/
theorem getDistanceOpacity_values_witness :
    getDistanceOpacity (5/10) = 2/10 :=
  (getDistanceOpacity_values.2.2.2.2 (5/10)).mpr (by norm_num)

/-- C6: anchor fidelity of the 4-segment interpolation, for every
opacity: at `t = 0, 0.25, 0.5, 0.75, 1` (i.e. `d = 0, 1/8, 1/4, 3/8,
1/2`) the anchor colors are reproduced exactly, and clamping makes
`color 1` equal the `t = 1` anchor `rgb(239,68,68)`; `color 0` is
`rgb(59,130,246)`. -/
theorem getDistanceColor_anchors (o : ℚ) :
    getDistanceColor 0 o = ⟨59, 130, 246, o⟩ ∧
    getDistanceColor (1/8) o = ⟨34, 197, 94, o⟩ ∧
    getDistanceColor (1/4) o = ⟨74, 222, 128, o⟩ ∧
    getDistanceColor (3/8) o = ⟨250, 204, 21, o⟩ ∧
    getDistanceColor (1/2) o = ⟨239, 68, 68, o⟩ ∧
    getDistanceColor 1 o = ⟨239, 68, 68, o⟩ := by
  refine ⟨?_, ?_, ?_, ?_, ?_, ?_⟩ <;>
    · simp only [getDistanceColor, jsRound]
      norm_num

/-- C9: word-order classification on the fixed key
`"VERBAL,NOMINAL,CORE_ARG"`: `Head-Initial ↔ rate > 0.7`,
`Head-Final ↔ rate < 0.3`, `Mixed ↔ 0.3 ≤ rate ≤ 0.7`, and `Unknown`
exactly when the cell is absent or null. -/
theorem getWordOrderTendency_classification (rates : HeadDirectionRates)
    (lang : String) :
    (∀ r : ℚ,
      ratesLookup rates "VERBAL,NOMINAL,CORE_ARG" lang = some (some r) →
        ((getWordOrderTendency lang rates = headInitialTendency ↔ r > 7/10) ∧
         (getWordOrderTendency lang rates = headFinalTendency ↔ r < 3/10) ∧
         (getWordOrderTendency lang rates = mixedTendency ↔
            3/10 ≤ r ∧ r ≤ 7/10))) ∧
    ((ratesLookup rates "VERBAL,NOMINAL,CORE_ARG" lang = none ∨
      ratesLookup rates "VERBAL,NOMINAL,CORE_ARG" lang = some none) ↔
        getWordOrderTendency lang rates = unknownTendency) := by
  constructor
  · intro r hr
    have hg : getWordOrderTendency lang rates =
        (if r > 7/10 then headInitialTendency
         else if r < 3/10 then headFinalTendency else mixedTendency) := by
      unfold getWordOrderTendency
      rw [hr]
    rw [hg]
    refine ⟨?_, ?_, ?_⟩ <;> split_ifs with h1 h2 <;>
      simp [headInitialTendency, headFinalTendency, mixedTendency] <;>
      first
        | linarith
        | (constructor <;> linarith)
        | (intro h3; linarith)
        | (intro h3 h4; linarith)
  · rcases hl : ratesLookup rates "VERBAL,NOMINAL,CORE_ARG" lang with _ | (_ | r)
    · unfold getWordOrderTendency
      rw [hl]
      simp
    · unfold getWordOrderTendency
      rw [hl]
      simp
    · unfold getWordOrderTendency
      rw [hl]
      dsimp only
      split_ifs <;>
        simp [headInitialTendency, headFinalTendency, mixedTendency,
          unknownTendency]

/-- Both components of a pair drawn from `pairsUpper` are list members. -/
theorem mem_of_mem_pairsUpper {α} {a b : α} :
    ∀ {l : List α}, (a, b) ∈ pairsUpper l → a ∈ l ∧ b ∈ l := by
  intro l
  induction l with
  | nil => intro h; simp [pairsUpper] at h
  | cons x xs ih =>
    intro h
    simp only [pairsUpper] at h
    rcases List.mem_append.mp h with hm | hm
    · rcases List.mem_map.mp hm with ⟨y, hy, he⟩
      rw [Prod.mk.injEq] at he
      obtain ⟨rfl, rfl⟩ := he
      exact ⟨List.mem_cons_self .., List.mem_cons_of_mem _ hy⟩
    · rcases ih hm with ⟨h1, h2⟩
      exact ⟨List.mem_cons_of_mem _ h1, List.mem_cons_of_mem _ h2⟩

/-- Inversion for membership in `simArcs`. -/
theorem mem_simArcs_inv {geoNorm : GeoNorm} {nodes matrix filter selected arc}
    (h : arc ∈ simArcs geoNorm nodes matrix filter selected) :
    ∃ n1 n2, (n1, n2) ∈ pairsUpper nodes ∧
      simArcPair geoNorm nodes matrix filter selected n1 n2 = some arc := by
  rcases List.mem_filterMap.mp h with ⟨p, hp, he⟩
  exact ⟨p.1, p.2, hp, he⟩

/-- Inversion for membership in `sameArcs`: the arc is `mkSameArc` of a
same-language pair. -/
theorem mem_sameArcs_inv {geoNorm : GeoNorm} {nodes arc}
    (h : arc ∈ sameArcs geoNorm nodes) :
    ∃ n1 n2, (n1, n2) ∈ pairsUpper nodes ∧ sameLanguagePair n1 n2 = true ∧
      arc = mkSameArc geoNorm n1 n2 := by
  rcases List.mem_filterMap.mp h with ⟨p, hp, he⟩
  by_cases hs : sameLanguagePair p.1 p.2
  · refine ⟨p.1, p.2, hp, hs, ?_⟩
    rw [if_pos hs] at he
    exact (Option.some.inj he).symm
  · rw [if_neg hs] at he
    exact absurd he (by simp)

/-- Full inversion of a successful `simArcPair`: recovers every guard
the phase-2 loop body passed and the produced arc's shape. -/
theorem simArcPair_eq_some
    {geoNorm : GeoNorm} {nodes matrix filter selected n1 n2 arc}
    (h : simArcPair geoNorm nodes matrix filter selected n1 n2 = some arc) :
    ∃ lang1Name lang2Name distance,
      selSkip selected n1 n2 = false ∧
      sameLanguagePair n1 n2 = false ∧
      resolveName nodes n1 = some lang1Name ∧
      resolveName nodes n2 = some lang2Name ∧
      (lang1Name == "" || lang2Name == "") = false ∧
      matrixGet matrix lang1Name lang2Name = some distance ∧
      (!selTruthy selected && !filter.get (getDistanceCategory distance))
        = false ∧
      arc =
        { startLat := n1.lat, startLng := n1.lng
          endLat := n2.lat, endLng := n2.lng
          color := getDistanceColor distance (getDistanceOpacity distance)
          lang1 := n1.name, lang2 := n2.name
          distance := distance
          geoDistance := geoNorm n1.lat n1.lng n2.lat n2.lng
          category := getDistanceCategory distance, clickable := true
          node1Code := n1.code, node2Code := n2.code } := by
  unfold simArcPair at h
  split at h
  · exact absurd h (by simp)
  split at h
  · exact absurd h (by simp)
  rename_i hsk hsm
  split at h
  case _ lang1Name lang2Name hr1 hr2 =>
    split at h
    · exact absurd h (by simp)
    rename_i hemp
    split at h
    · exact absurd h (by simp)
    case _ distance hm =>
      dsimp only at h
      split at h
      · exact absurd h (by simp)
      rename_i hfg
      refine ⟨lang1Name, lang2Name, distance,
        (by exact Bool.of_not_eq_true hsk),
        (by exact Bool.of_not_eq_true hsm),
        hr1, hr2,
        (by exact Bool.of_not_eq_true hemp),
        hm,
        (by exact Bool.of_not_eq_true hfg),
        (Option.some.inj h).symm⟩
  case _ o1 o2 hne =>
    exact absurd h (by simp)

/-- Every bucket of `allFilter` is enabled. -/
theorem allFilter_get (c : Category) : allFilter.get c = true := by
  cases c <;> rfl

/-- Pairs of entries at increasing indices belong to `pairsUpper`. -/
theorem get_pair_mem_pairsUpper {α} :
    ∀ (l : List α) (i j : Nat) (hi : i < l.length) (hj : j < l.length),
      i < j → (l.get ⟨i, hi⟩, l.get ⟨j, hj⟩) ∈ pairsUpper l := by
  intro l
  induction l with
  | nil => intro i j hi hj hij; simp at hi
  | cons x xs ih =>
    intro i j hi hj hij
    simp only [pairsUpper]
    cases i with
    | zero =>
      apply List.mem_append_left
      apply List.mem_map.mpr
      cases j with
      | zero => omega
      | succ j' =>
        exact ⟨xs.get ⟨j', by simpa using hj⟩, List.get_mem .., rfl⟩
    | succ i' =>
      cases j with
      | zero => omega
      | succ j' =>
        apply List.mem_append_right
        exact ih i' j' (by simpa using hi) (by simpa using hj) (by omega)

/-- Every item the ranking loop collects carries
`similarity = 1 - distance`. -/
theorem rankingItems_similarity
    {nodes selectedNode selCode selectedLangName matrix item}
    (h : item ∈ rankingItems nodes selectedNode selCode selectedLangName
      matrix) :
    item.similarity = 1 - item.distance := by
  rcases List.mem_filterMap.mp h with ⟨node, _, he⟩
  split at he
  · exact absurd he (by simp)
  split at he
  · exact absurd he (by simp)
  split at he
  · exact absurd he (by simp)
  split at he
  · exact absurd he (by simp)
  split at he
  · exact absurd he (by simp)
  split at he
  · exact absurd he (by simp)
  case _ nodeLangName hres =>
    split at he
    · exact absurd he (by simp)
    split at he
    · exact absurd he (by simp)
    case _ dd hmg =>
      obtain rfl := Option.some.inj he
      rfl

/-- Every primary-name lookup over the registry resolves, and resolves
to the node's primary-language code. -/
theorem registry_name_resolution :
    ∀ n ∈ LANGUAGE_LOCATIONS,
      ((getLanguageByName n.name).map fun l => l.code) = primaryCodeOfNode n ∧
      (getLanguageByName n.name).isSome = true := by
  decide

/-- C1 (amended): a similarity arc for an `i < j` pair is produced
exactly from the one directional entry
`matrix[lang1Name][lang2Name]` where `lang1Name` is the representative
name of the lower-indexed node; when that entry exists (pair not
same-language, names resolved and non-empty, category enabled, nothing
selected) the arc is emitted with that distance.  The reverse entry
alone never yields an arc (`directional_lookup_counterexample`). -/
theorem directional_lookup_amended
    (geoNorm : GeoNorm) (nodes : List LanguageLocation)
    (matrix : SimilarityMatrix) (filter : DistanceFilter)
    (n1 n2 : LanguageLocation) (lang1Name lang2Name : String) (d : ℚ)
    (hp : (n1, n2) ∈ pairsUpper nodes)
    (hsame : sameLanguagePair n1 n2 = false)
    (h1 : resolveName nodes n1 = some lang1Name) (h1e : lang1Name ≠ "")
    (h2 : resolveName nodes n2 = some lang2Name) (h2e : lang2Name ≠ "")
    (hm : matrixGet matrix lang1Name lang2Name = some d)
    (hf : filter.get (getDistanceCategory d) = true) :
    ∃ arc ∈ arcsData geoNorm nodes matrix filter none,
      arc.node1Code = n1.code ∧ arc.node2Code = n2.code ∧
      arc.distance = d ∧ arc.category = getDistanceCategory d ∧
      arc.clickable = true := by
  have hpair : simArcPair geoNorm nodes matrix filter none n1 n2 =
      some
        { startLat := n1.lat, startLng := n1.lng
          endLat := n2.lat, endLng := n2.lng
          color := getDistanceColor d (getDistanceOpacity d)
          lang1 := n1.name, lang2 := n2.name
          distance := d
          geoDistance := geoNorm n1.lat n1.lng n2.lat n2.lng
          category := getDistanceCategory d, clickable := true
          node1Code := n1.code, node2Code := n2.code } := by
    unfold simArcPair
    rw [hsame, h1, h2]
    simp [selSkip, selTruthy, optStrTruthy, h1e, h2e, hm, hf]
  exact ⟨_, List.mem_append_right _
    (List.mem_filterMap.mpr ⟨(n1, n2), hp, hpair⟩), rfl, rfl, rfl, rfl, rfl⟩

/-- C1 counterexample: with the pair's entry present only in the
direction `matrix["LangB"]["LangA"]` — the reverse of the direction the
code consults for `(nodeA, nodeB)` — no arc is produced at all, even
with every filter bucket enabled and no selection, although both names
resolve and the pair is not same-language. -/
theorem directional_lookup_counterexample :
    matrixGet reverseOnlyMatrix "LangB" "LangA" = some (1/2) ∧
    matrixGet reverseOnlyMatrix "LangA" "LangB" = none ∧
    resolveName [nodeA, nodeB] nodeA = some "LangA" ∧
    resolveName [nodeA, nodeB] nodeB = some "LangB" ∧
    sameLanguagePair nodeA nodeB = false ∧
    (nodeA, nodeB) ∈ pairsUpper [nodeA, nodeB] ∧
    arcsData geoZero [nodeA, nodeB] reverseOnlyMatrix allFilter none = [] := by
  refine ⟨rfl, rfl, rfl, rfl, rfl, ?_, rfl⟩
  exact get_pair_mem_pairsUpper [nodeA, nodeB] 0 1 (by decide) (by decide)
    (by decide)

/-- C1 witness: with the entry stored in the consulted direction the
arc does appear. -/
theorem directional_lookup_amended_witness :
    ∃ arc ∈ arcsData geoZero [nodeA, nodeB] forwardOnlyMatrix allFilter none,
      arc.node1Code = nodeA.code ∧ arc.node2Code = nodeB.code ∧
      arc.distance = 1/2 ∧ arc.category = getDistanceCategory (1/2) ∧
      arc.clickable = true :=
  directional_lookup_amended geoZero [nodeA, nodeB] forwardOnlyMatrix
    allFilter nodeA nodeB "LangA" "LangB" (1/2)
    (get_pair_mem_pairsUpper [nodeA, nodeB] 0 1 (by decide) (by decide)
      (by decide))
    rfl rfl (by decide) rfl (by decide) rfl (allFilter_get _)

/-- C2: selection scoping of similarity arcs.  Every clickable
(similarity) arc of `arcsData` satisfies: with a selected node code `X`
(node codes are non-empty) one of its endpoints is `X`, for every
filter; with no selection its category passes the filter. -/
theorem selection_scoping
    (geoNorm : GeoNorm) (nodes : List LanguageLocation)
    (matrix : SimilarityMatrix) (filter : DistanceFilter)
    (sel : Option String) (arc : ArcData)
    (h : arc ∈ arcsData geoNorm nodes matrix filter sel)
    (hc : arc.clickable = true) :
    (∀ X, sel = some X → X ≠ "" →
       arc.node1Code = X ∨ arc.node2Code = X) ∧
    (sel = none → filter.get arc.category = true) := by
  rcases List.mem_append.mp h with hs | hs
  · rcases mem_sameArcs_inv hs with ⟨n1, n2, _, _, he⟩
    rw [he] at hc
    exact absurd hc (by simp [mkSameArc])
  · rcases mem_simArcs_inv hs with ⟨n1, n2, hp, hpair⟩
    rcases simArcPair_eq_some hpair with
      ⟨l1, l2, d, hskip, _, _, _, _, _, hguard, harc⟩
    constructor
    · intro X hX hXe
      subst hX
      by_cases h1 : n1.code = X
      · left; rw [harc]; exact h1
      by_cases h2 : n2.code = X
      · right; rw [harc]; exact h2
      · exfalso
        simp [selSkip, hXe, h1, h2] at hskip
    · intro hnone
      subst hnone
      simp only [selTruthy, optStrTruthy, Bool.not_false, Bool.true_and]
        at hguard
      rw [harc]
      simpa using hguard

/-- C2 witness: with node `a` selected and every filter bucket
disabled, the arc `arcAB` is still produced and the theorem applies. -/
theorem selection_scoping_witness :
    (∀ X, (some "a" : Option String) = some X → X ≠ "" →
       arcAB.node1Code = X ∨ arcAB.node2Code = X) ∧
    ((some "a" : Option String) = none →
       noFilter.get arcAB.category = true) :=
  selection_scoping geoZero [nodeA, nodeB] forwardOnlyMatrix noFilter
    (some "a") arcAB
    (List.mem_append_right _ (List.mem_filterMap.mpr
      ⟨(nodeA, nodeB),
        get_pair_mem_pairsUpper [nodeA, nodeB] 0 1 (by decide) (by decide)
          (by decide), rfl⟩))
    rfl

/-- C3: same-language arcs.  For every `i < j` pair passing the
same-language test, and for every matrix, filter and selection,
`arcsData` contains the `same`-category, non-clickable arc between the
two nodes. -/
theorem same_language_arcs
    (geoNorm : GeoNorm) (nodes : List LanguageLocation)
    (matrix : SimilarityMatrix) (filter : DistanceFilter)
    (sel : Option String) (n1 n2 : LanguageLocation)
    (hp : (n1, n2) ∈ pairsUpper nodes)
    (hsame : sameLanguagePair n1 n2 = true) :
    ∃ arc ∈ arcsData geoNorm nodes matrix filter sel,
      arc = mkSameArc geoNorm n1 n2 ∧ arc.category = .same ∧
      arc.clickable = false ∧ arc.node1Code = n1.code ∧
      arc.node2Code = n2.code := by
  refine ⟨mkSameArc geoNorm n1 n2,
    List.mem_append_left _ (List.mem_filterMap.mpr ⟨(n1, n2), hp, ?_⟩),
    rfl, rfl, rfl, rfl, rfl⟩
  simp [hsame]

/-- C3 witness: the `en`/`en-us` pair of the registry yields its same
arc even with an empty matrix, all buckets disabled and `ja` selected. -/
theorem same_language_arcs_witness :
    ∃ arc ∈ arcsData geoZero LANGUAGE_LOCATIONS [] noFilter (some "ja"),
      arc = mkSameArc geoZero enRegistryNode enUSRegistryNode ∧
      arc.category = .same ∧ arc.clickable = false ∧
      arc.node1Code = enRegistryNode.code ∧
      arc.node2Code = enUSRegistryNode.code :=
  same_language_arcs geoZero LANGUAGE_LOCATIONS [] noFilter (some "ja")
    enRegistryNode enUSRegistryNode
    (get_pair_mem_pairsUpper LANGUAGE_LOCATIONS 3 33 (by decide) (by decide)
      (by decide))
    rfl

/-- C8: clicking a similarity arc of the registry build never changes
the selection state, and the emitted navigation route is built from the
primary-language codes of the two endpoint nodes (secondary endpoints
contribute their primary's code, resolved through the display name). -/
theorem arc_click_navigation
    (geoNorm : GeoNorm) (matrix : SimilarityMatrix)
    (filter : DistanceFilter) (s sel : Option String) (arc : ArcData)
    (h : arc ∈ simArcs geoNorm LANGUAGE_LOCATIONS matrix filter s) :
    (handleArcClick sel arc).1 = sel ∧
    ∃ n1 n2 c1 c2,
      n1 ∈ LANGUAGE_LOCATIONS ∧ n2 ∈ LANGUAGE_LOCATIONS ∧
      arc.node1Code = n1.code ∧ arc.node2Code = n2.code ∧
      primaryCodeOfNode n1 = some c1 ∧ primaryCodeOfNode n2 = some c2 ∧
      (handleArcClick sel arc).2 = some ("/compare/" ++ c1 ++ "/" ++ c2) := by
  rcases mem_simArcs_inv h with ⟨n1, n2, hp, hpair⟩
  rcases simArcPair_eq_some hpair with ⟨l1, l2, d, _, _, _, _, _, _, _, harc⟩
  obtain ⟨hn1, hn2⟩ := mem_of_mem_pairsUpper hp
  obtain ⟨r1map, r1some⟩ := registry_name_resolution n1 hn1
  obtain ⟨r2map, r2some⟩ := registry_name_resolution n2 hn2
  rcases hg1 : getLanguageByName n1.name with _ | p1
  · rw [hg1] at r1some; exact absurd r1some (by simp)
  rcases hg2 : getLanguageByName n2.name with _ | p2
  · rw [hg2] at r2some; exact absurd r2some (by simp)
  have hc1 : primaryCodeOfNode n1 = some p1.code := by
    rw [← r1map, hg1]; rfl
  have hc2 : primaryCodeOfNode n2 = some p2.code := by
    rw [← r2map, hg2]; rfl
  have hclick : handleArcClick sel arc =
      (sel, some ("/compare/" ++ p1.code ++ "/" ++ p2.code)) := by
    rw [harc]
    unfold handleArcClick
    simp only [hg1, hg2]
    rfl
  refine ⟨by rw [hclick], n1, n2, p1.code, p2.code, hn1, hn2,
    by rw [harc], by rw [harc], hc1, hc2, by rw [hclick]⟩

/-- C8 witness at the Arabic–English arc with Arabic selected. -/
theorem arc_click_navigation_witness :
    (handleArcClick (some "ar") arWitnessArc).1 = some "ar" ∧
    ∃ n1 n2 c1 c2,
      n1 ∈ LANGUAGE_LOCATIONS ∧ n2 ∈ LANGUAGE_LOCATIONS ∧
      arWitnessArc.node1Code = n1.code ∧ arWitnessArc.node2Code = n2.code ∧
      primaryCodeOfNode n1 = some c1 ∧ primaryCodeOfNode n2 = some c2 ∧
      (handleArcClick (some "ar") arWitnessArc).2 =
        some ("/compare/" ++ c1 ++ "/" ++ c2) :=
  arc_click_navigation geoZero arWitnessMatrix allFilter (some "ar")
    (some "ar") arWitnessArc
    (List.mem_filterMap.mpr
      ⟨(arRegistryNode, enRegistryNode),
        get_pair_mem_pairsUpper LANGUAGE_LOCATIONS 0 3 (by decide)
          (by decide) (by decide), rfl⟩)

/-- C10: if the matrix holds no row keyed by the selected node's
representative language name, the ranking is empty — no fallback to
other rows' columns, no error. -/
theorem ranking_missing_row
    (nodes : List LanguageLocation) (selCode : String)
    (matrix : SimilarityMatrix) (selectedNode : LanguageLocation)
    (selectedLangName : String)
    (hfind : (nodes.find? fun l => l.code == selCode) = some selectedNode)
    (hres : resolveName nodes selectedNode = some selectedLangName)
    (hrow : matrix.lookup selectedLangName = none) :
    sortedSimilarities nodes selCode matrix = [] := by
  unfold sortedSimilarities
  rw [hfind]
  dsimp only
  rw [hres]
  dsimp only
  by_cases he : selectedLangName == ""
  · rw [if_pos he]
  · rw [if_neg he, hrow]

/-- C10 witness: the single row of `rowlessMatrix` is keyed by another
name and mentions `"Sel"` only as a column; the ranking is `[]`. -/
theorem ranking_missing_row_witness :
    sortedSimilarities [rankNodeSel] "s" rowlessMatrix = [] :=
  ranking_missing_row [rankNodeSel] "s" rowlessMatrix rankNodeSel "Sel"
    rfl rfl rfl

/-- C4: the ranking is sorted ascending by distance, every entry has
`similarity = 1 - distance`, the full item list is returned with no cap
(output is a permutation of the collected items), and on distances
{A: 0.02, B: 0.10, C: 0.40} the order is A, B, C with similarities
0.98, 0.90, 0.60. -/
theorem ranking_spec :
    (∀ nodes selCode matrix,
       List.Sorted itemLE (sortedSimilarities nodes selCode matrix)) ∧
    (∀ nodes selCode matrix item,
       item ∈ sortedSimilarities nodes selCode matrix →
         item.similarity = 1 - item.distance) ∧
    (∀ nodes selCode matrix selectedNode selectedLangName row,
       (nodes.find? fun l => l.code == selCode) = some selectedNode →
       resolveName nodes selectedNode = some selectedLangName →
       selectedLangName ≠ "" →
       matrix.lookup selectedLangName = some row →
       (sortedSimilarities nodes selCode matrix).Perm
         (rankingItems nodes selectedNode selCode selectedLangName matrix)) ∧
    sortedSimilarities rankNodes "s" rankMatrix =
      [{ code := "ra", name := "A", nameJa := "", country := ""
         similarity := 98/100, distance := 2/100 },
       { code := "rb", name := "B", nameJa := "", country := ""
         similarity := 9/10, distance := 1/10 },
       { code := "rc", name := "C", nameJa := "", country := ""
         similarity := 6/10, distance := 4/10 }] := by
  refine ⟨?_, ?_, ?_, ?_⟩
  · intro nodes selCode matrix
    unfold sortedSimilarities
    split
    · exact List.sorted_nil
    split
    · exact List.sorted_nil
    split
    · exact List.sorted_nil
    split
    · exact List.sorted_nil
    · exact List.sorted_insertionSort itemLE _
  · intro nodes selCode matrix item h
    unfold sortedSimilarities at h
    split at h
    · simp at h
    split at h
    · simp at h
    split at h
    · simp at h
    split at h
    · simp at h
    · exact rankingItems_similarity ((List.mem_insertionSort itemLE).mp h)
  · intro nodes selCode matrix selectedNode selectedLangName row hfind hres
      hne hrow
    unfold sortedSimilarities
    rw [hfind]
    dsimp only
    rw [hres]
    dsimp only
    rw [if_neg (by simpa using hne), hrow]
    exact List.perm_insertionSort itemLE _
  · have hrank : sortedSimilarities rankNodes "s" rankMatrix =
        List.insertionSort itemLE
          [{ code := "ra", name := "A", nameJa := "", country := ""
             similarity := 1 - 2/100, distance := 2/100 },
           { code := "rb", name := "B", nameJa := "", country := ""
             similarity := 1 - 1/10, distance := 1/10 },
           { code := "rc", name := "C", nameJa := "", country := ""
             similarity := 1 - 4/10, distance := 4/10 }] := rfl
    rw [hrank]
    norm_num [List.insertionSort, List.orderedInsert, itemLE]

/-- C4 witness instantiating the no-cap clause on the example data. -/
theorem ranking_spec_witness :
    (sortedSimilarities rankNodes "s" rankMatrix).Perm
      (rankingItems rankNodes rankNodeSel "s" "Sel" rankMatrix) :=
  ranking_spec.2.2.1 rankNodes "s" rankMatrix rankNodeSel "Sel"
    [("A", some (2/100)), ("B", some (1/10)), ("C", some (4/10))]
    rfl rfl (by decide) rfl

/-- C9 witness: a rate of 0.95 classifies Head-Initial, 0.02 classifies
Head-Final, and a `null` cell classifies Unknown. -/
theorem word_order_classification_witness :
    getWordOrderTendency "English" ratesWitness = headInitialTendency ∧
    getWordOrderTendency "Japanese" ratesWitness = headFinalTendency ∧
    getWordOrderTendency "Thai" ratesWitness = unknownTendency :=
  ⟨((getWordOrderTendency_classification ratesWitness "English").1 (95/100)
      rfl).1.mpr (by norm_num),
   ((getWordOrderTendency_classification ratesWitness "Japanese").1 (2/100)
      rfl).2.1.mpr (by norm_num),
   (getWordOrderTendency_classification ratesWitness "Thai").2.mp
      (Or.inr rfl)⟩
